import Mathlib

/-!
Verification of the voxfile VOX decoder (package voxfile, file voxfile.go).

The decoder reads a byte stream: an 8-byte header (magic "VOX " plus a
little-endian uint32 version that must equal 150), then a recursive tree of
chunks, each with a 4-byte identifier, a little-endian uint32 payload size and
a little-endian uint32 children size. Recognized identifiers are SIZE, XYZI and
RGBA; everything else is skipped. The Go code is embedded shallowly below:
the byte stream is a `List Nat` threaded through state-passing functions,
machine uint32 arithmetic is `Nat` with explicit `% 2 ^ 32` where Go can
overflow, and each `fmt.Errorf` site becomes a constructor of `Err`.
The recursive chunk reader is given explicit fuel because the Go loop
terminates only by exhausting the (finite) input stream; the top-level entry
point supplies `stream length + 1` fuel, which the Go control flow can never
exhaust before a read fails.
-/

set_option maxRecDepth 100000

namespace Voxfile

/-- A byte stream: each element is one byte of the input (below 256 on real
input; nothing below depends on the bound except where stated). -/
abbrev Bytes := List Nat

/-- One voxel record: position bytes X, Y, Z and a palette index
(struct Voxel in voxfile.go). -/
structure Voxel where
  X : Nat
  Y : Nat
  Z : Nat
  Index : Nat
deriving DecidableEq, Repr

/-- One palette color: R, G, B, A channel bytes (struct Color in voxfile.go). -/
structure Color where
  R : Nat
  G : Nat
  B : Nat
  A : Nat
deriving DecidableEq, Repr

/-- The decode result record (struct VoxFile in voxfile.go). -/
structure VoxFile where
  Version : Nat
  SizeX : Nat
  SizeY : Nat
  SizeZ : Nat
  Voxels : List Voxel
  Palette : List Color
deriving DecidableEq, Repr

/-- The zero value `new(VoxFile)` that Decode starts from. -/
def emptyVox : VoxFile := ⟨0, 0, 0, 0, [], []⟩

/-- Every distinct `fmt.Errorf` site of voxfile.go, as a constructor.
`outOfFuel` is a modelling artifact of the explicit fuel; it is never
reached from the top-level entry point. -/
inductive Err where
  | magicRead
  | badMagic (m : Bytes)
  | versionRead
  | badVersion (found expected : Nat)
  | chunkIDRead
  | chunkSizeRead (cid : Bytes)
  | childrenSizeRead (cid : Bytes)
  | sizeBadSize (cid : Bytes) (sz : Nat)
  | sizeXRead (cid : Bytes)
  | sizeYRead (cid : Bytes)
  | sizeZRead (cid : Bytes)
  | voxelCountRead (cid : Bytes)
  | voxelRead (cid : Bytes) (i : Nat)
  | colorRead (cid : Bytes) (i : Nat)
  | contentsRead (cid : Bytes)
  | outOfFuel
deriving DecidableEq, Repr

/-- Outcome of `readChunk`: either the bytes-read count (a uint32 in Go)
together with the unconsumed remainder of the stream, or an error. -/
inductive ChunkOut where
  | ok (bytesRead : Nat) (rest : Bytes)
  | err (e : Err)
deriving DecidableEq, Repr

/-- True when a `ChunkOut` is the error case. -/
def ChunkOut.isErr : ChunkOut → Bool
  | .ok _ _ => false
  | .err _ => true

/-- Semantics of `r.Read(buf[:4])` on a bufio.Reader over the stream: at end
of stream it reports an error (Go returns `0, io.EOF`); otherwise it returns
up to 4 bytes, short only when fewer remain. -/
def goRead4 : Bytes → Option (Bytes × Bytes)
  | [] => none
  | b :: rest => some ((b :: rest).take 4, (b :: rest).drop 4)

/-- Semantics of `binary.Read` into a uint8: exactly one byte or an error. -/
def readByte? : Bytes → Option (Nat × Bytes)
  | [] => none
  | b :: rest => some (b, rest)

/-- The value of a little-endian uint32 assembled from four bytes. -/
def le32 (b0 b1 b2 b3 : Nat) : Nat :=
  b0 + 256 * b1 + 65536 * b2 + 16777216 * b3

/-- Semantics of `binary.Read` into a uint32: exactly four bytes,
little-endian, or an error (io.ReadFull semantics: a short read errors). -/
def readLE32? : Bytes → Option (Nat × Bytes)
  | b0 :: b1 :: b2 :: b3 :: rest => some (le32 b0 b1 b2 b3, rest)
  | _ => none

/-- Encode a natural number as its four little-endian bytes (modulo 2^32);
used only to state theorems about on-disk layouts. -/
def le32b (n : Nat) : Bytes :=
  [n % 256, n / 256 % 256, n / 65536 % 256, n / 16777216 % 256]

/-- The chunk identifier bytes of "SIZE". -/
def sizeID : Bytes := [83, 73, 90, 69]

/-- The chunk identifier bytes of "XYZI". -/
def xyziID : Bytes := [88, 89, 90, 73]

/-- The chunk identifier bytes of "RGBA". -/
def rgbaID : Bytes := [82, 71, 66, 65]

/-- The XYZI handler loop of readChunk: read `n` consecutive 4-byte voxel
records (X, Y, Z, palette index), `i` being the index of the next record for
error reporting. Mirrors the `for i := uint32(0); i < voxelCount; i++` loop. -/
def readVoxels (cid : Bytes) (i n : Nat) (s : Bytes) :
    Except Err (List Voxel × Bytes) :=
  match n with
  | 0 => .ok ([], s)
  | Nat.succ m =>
    match readByte? s with
    | none => .error (.voxelRead cid i)
    | some (vX, s1) =>
      match readByte? s1 with
      | none => .error (.voxelRead cid i)
      | some (vY, s2) =>
        match readByte? s2 with
        | none => .error (.voxelRead cid i)
        | some (vZ, s3) =>
          match readByte? s3 with
          | none => .error (.voxelRead cid i)
          | some (vI, s4) =>
            match readVoxels cid (i + 1) m s4 with
            | .error e => .error e
            | .ok (vs, s5) => .ok (Voxel.mk vX vY vZ vI :: vs, s5)

/-- The RGBA handler loop of readChunk: read `n` consecutive 4-byte color
records (R, G, B, A), `i` being the index of the next record. Mirrors the
`for i := 0; i < paletteSize; i++` loop (always invoked with n = 256). -/
def readColors (cid : Bytes) (i n : Nat) (s : Bytes) :
    Except Err (List Color × Bytes) :=
  match n with
  | 0 => .ok ([], s)
  | Nat.succ m =>
    match readByte? s with
    | none => .error (.colorRead cid i)
    | some (vR, s1) =>
      match readByte? s1 with
      | none => .error (.colorRead cid i)
      | some (vG, s2) =>
        match readByte? s2 with
        | none => .error (.colorRead cid i)
        | some (vB, s3) =>
          match readByte? s3 with
          | none => .error (.colorRead cid i)
          | some (vA, s4) =>
            match readColors cid (i + 1) m s4 with
            | .error e => .error e
            | .ok (cs, s5) => .ok (Color.mk vR vG vB vA :: cs, s5)

/-- The unknown-identifier skip loop of readChunk: `for totalRead <
int(chunkSize)` it calls `r.Read(chunkID[:])` — a read of UP TO FOUR bytes —
and adds the count actually read to `totalRead`. Note it does not clamp the
read to the bytes remaining in the payload. -/
def skipBytes (cid : Bytes) (chunkSize total : Nat) (s : Bytes) :
    Except Err Bytes :=
  if total < chunkSize then
    match s with
    | [] => .error (.contentsRead cid)
    | _ :: rest =>
      skipBytes cid chunkSize (total + min 4 (rest.length + 1)) (rest.drop 3)
  else .ok s
termination_by chunkSize - total
decreasing_by
  have h1 : 0 < min 4 (rest.length + 1) := Nat.lt_min.mpr ⟨by omega, by omega⟩
  omega

/-- The payload dispatch of readChunk (lines 139-242 of voxfile.go): nothing
happens unless the declared payload size is positive; then SIZE, XYZI and
RGBA get their handlers and any other identifier is skipped. On an error the
result record is unchanged (every handler assigns its fields only after all
of its reads succeed). -/
def processPayload (cid : Bytes) (chunkSize : Nat) (s : Bytes) (vf : VoxFile) :
    Except Err (VoxFile × Bytes) :=
  if 0 < chunkSize then
    if cid = sizeID then
      if chunkSize ≠ 12 then
        .error (.sizeBadSize cid chunkSize)
      else
        match readLE32? s with
        | none => .error (.sizeXRead cid)
        | some (sizeX, s1) =>
          match readLE32? s1 with
          | none => .error (.sizeYRead cid)
          | some (sizeY, s2) =>
            match readLE32? s2 with
            | none => .error (.sizeZRead cid)
            | some (sizeZ, s3) =>
              .ok ({ vf with SizeX := sizeX, SizeY := sizeY, SizeZ := sizeZ }, s3)
    else if cid = xyziID then
      match readLE32? s with
      | none => .error (.voxelCountRead cid)
      | some (voxelCount, s1) =>
        match readVoxels cid 0 voxelCount s1 with
        | .error e => .error e
        | .ok (voxels, s2) => .ok ({ vf with Voxels := voxels }, s2)
    else if cid = rgbaID then
      match readColors cid 0 256 s with
      | .error e => .error e
      | .ok (customPalette, s2) => .ok ({ vf with Palette := customPalette }, s2)
    else
      match skipBytes cid chunkSize 0 s with
      | .error e => .error e
      | .ok s2 => .ok (vf, s2)
  else .ok (vf, s)

mutual

/-- readChunk (voxfile.go lines 116-255): read the 12-byte chunk header
(identifier, payload size, children size), process the payload, read children
until the declared children-size budget reaches 0, and return
`(chunkSize + 12) % 2^32` as the bytes-read count (the Go expression
`chunkSize + 12` on uint32). The result record is threaded through and
returned even on error, matching mutation through the Go pointer. -/
def readChunk : Nat → Bytes → VoxFile → ChunkOut × VoxFile
  | 0, _, vf => (.err .outOfFuel, vf)
  | Nat.succ fuel, s, vf =>
    match goRead4 s with
    | none => (.err .chunkIDRead, vf)
    | some (cid, s1) =>
      match readLE32? s1 with
      | none => (.err (.chunkSizeRead cid), vf)
      | some (chunkSize, s2) =>
        match readLE32? s2 with
        | none => (.err (.childrenSizeRead cid), vf)
        | some (chunkChildrenSize, s3) =>
          match processPayload cid chunkSize s3 vf with
          | .error e => (.err e, vf)
          | .ok (vf2, s4) =>
            match readChildren fuel chunkChildrenSize s4 vf2 with
            | (.error e, vf3) => (.err e, vf3)
            | (.ok s5, vf3) =>
              (.ok ((chunkSize + 12) % 4294967296) s5, vf3)

/-- The children loop of readChunk (lines 245-252): while the remaining
children budget is positive, read one child and subtract its reported size in
uint32 arithmetic (`remainingBytes - childReadSize` can wrap). -/
def readChildren : Nat → Nat → Bytes → VoxFile → Except Err Bytes × VoxFile
  | _, 0, s, vf => (.ok s, vf)
  | 0, _, _, vf => (.error .outOfFuel, vf)
  | Nat.succ fuel, Nat.succ r, s, vf =>
    match readChunk fuel s vf with
    | (.err e, vf2) => (.error e, vf2)
    | (.ok childReadSize s2, vf2) =>
      readChildren fuel
        ((Nat.succ r + (4294967296 - childReadSize % 4294967296)) % 4294967296)
        s2 vf2

end

/-- instancePalette (lines 257-274): unpack each packed 32-bit palette value
into a Color, with byte 0 = R, byte 1 = G, byte 2 = B, byte 3 = A. -/
def instancePalette (p : List Nat) : List Color :=
  p.map (fun value =>
    Color.mk (value &&& 0x000000ff) ((value &&& 0x0000ff00) >>> 8)
      ((value &&& 0x00ff0000) >>> 16) ((value &&& 0xff000000) >>> 24))

/-- The built-in packed default palette (lines 276-292), transcribed in
on-disk order. -/
def defaultPalette : List Nat :=
  [0x00000000, 0xffffffff, 0xffccffff, 0xff99ffff, 0xff66ffff, 0xff33ffff,
   0xff00ffff, 0xffffccff, 0xffccccff, 0xff99ccff, 0xff66ccff, 0xff33ccff,
   0xff00ccff, 0xffff99ff, 0xffcc99ff, 0xff9999ff, 0xff6699ff, 0xff3399ff,
   0xff0099ff, 0xffff66ff, 0xffcc66ff, 0xff9966ff, 0xff6666ff, 0xff3366ff,
   0xff0066ff, 0xffff33ff, 0xffcc33ff, 0xff9933ff, 0xff6633ff, 0xff3333ff,
   0xff0033ff, 0xffff00ff, 0xffcc00ff, 0xff9900ff, 0xff6600ff, 0xff3300ff,
   0xff0000ff, 0xffffffcc, 0xffccffcc, 0xff99ffcc, 0xff66ffcc, 0xff33ffcc,
   0xff00ffcc, 0xffffcccc, 0xffcccccc, 0xff99cccc, 0xff66cccc, 0xff33cccc,
   0xff00cccc, 0xffff99cc, 0xffcc99cc, 0xff9999cc, 0xff6699cc, 0xff3399cc,
   0xff0099cc, 0xffff66cc, 0xffcc66cc, 0xff9966cc, 0xff6666cc, 0xff3366cc,
   0xff0066cc, 0xffff33cc, 0xffcc33cc, 0xff9933cc, 0xff6633cc, 0xff3333cc,
   0xff0033cc, 0xffff00cc, 0xffcc00cc, 0xff9900cc, 0xff6600cc, 0xff3300cc,
   0xff0000cc, 0xffffff99, 0xffccff99, 0xff99ff99, 0xff66ff99, 0xff33ff99,
   0xff00ff99, 0xffffcc99, 0xffcccc99, 0xff99cc99, 0xff66cc99, 0xff33cc99,
   0xff00cc99, 0xffff9999, 0xffcc9999, 0xff999999, 0xff669999, 0xff339999,
   0xff009999, 0xffff6699, 0xffcc6699, 0xff996699, 0xff666699, 0xff336699,
   0xff006699, 0xffff3399, 0xffcc3399, 0xff993399, 0xff663399, 0xff333399,
   0xff003399, 0xffff0099, 0xffcc0099, 0xff990099, 0xff660099, 0xff330099,
   0xff000099, 0xffffff66, 0xffccff66, 0xff99ff66, 0xff66ff66, 0xff33ff66,
   0xff00ff66, 0xffffcc66, 0xffcccc66, 0xff99cc66, 0xff66cc66, 0xff33cc66,
   0xff00cc66, 0xffff9966, 0xffcc9966, 0xff999966, 0xff669966, 0xff339966,
   0xff009966, 0xffff6666, 0xffcc6666, 0xff996666, 0xff666666, 0xff336666,
   0xff006666, 0xffff3366, 0xffcc3366, 0xff993366, 0xff663366, 0xff333366,
   0xff003366, 0xffff0066, 0xffcc0066, 0xff990066, 0xff660066, 0xff330066,
   0xff000066, 0xffffff33, 0xffccff33, 0xff99ff33, 0xff66ff33, 0xff33ff33,
   0xff00ff33, 0xffffcc33, 0xffcccc33, 0xff99cc33, 0xff66cc33, 0xff33cc33,
   0xff00cc33, 0xffff9933, 0xffcc9933, 0xff999933, 0xff669933, 0xff339933,
   0xff009933, 0xffff6633, 0xffcc6633, 0xff996633, 0xff666633, 0xff336633,
   0xff006633, 0xffff3333, 0xffcc3333, 0xff993333, 0xff663333, 0xff333333,
   0xff003333, 0xffff0033, 0xffcc0033, 0xff990033, 0xff660033, 0xff330033,
   0xff000033, 0xffffff00, 0xffccff00, 0xff99ff00, 0xff66ff00, 0xff33ff00,
   0xff00ff00, 0xffffcc00, 0xffcccc00, 0xff99cc00, 0xff66cc00, 0xff33cc00,
   0xff00cc00, 0xffff9900, 0xffcc9900, 0xff999900, 0xff669900, 0xff339900,
   0xff009900, 0xffff6600, 0xffcc6600, 0xff996600, 0xff666600, 0xff336600,
   0xff006600, 0xffff3300, 0xffcc3300, 0xff993300, 0xff663300, 0xff333300,
   0xff003300, 0xffff0000, 0xffcc0000, 0xff990000, 0xff660000, 0xff330000,
   0xff0000ee, 0xff0000dd, 0xff0000bb, 0xff0000aa, 0xff000088, 0xff000077,
   0xff000055, 0xff000044, 0xff000022, 0xff000011, 0xff00ee00, 0xff00dd00,
   0xff00bb00, 0xff00aa00, 0xff008800, 0xff007700, 0xff005500, 0xff004400,
   0xff002200, 0xff001100, 0xffee0000, 0xffdd0000, 0xffbb0000, 0xffaa0000,
   0xff880000, 0xff770000, 0xff550000, 0xff440000, 0xff220000, 0xff110000,
   0xffeeeeee, 0xffdddddd, 0xffbbbbbb, 0xffaaaaaa, 0xff888888, 0xff777777,
   0xff555555, 0xff444444, 0xff222222, 0xff111111]

/-- The declared payload size of the chunk at the head of a stream: the
little-endian uint32 found after the 4 identifier bytes (0 if the stream is
too short to carry one). Used to state byte-accounting theorems. -/
def declPayloadSize (s : Bytes) : Nat :=
  match readLE32? (s.drop 4) with
  | some (v, _) => v
  | none => 0

/-- The on-disk bytes of a list of voxel records, four bytes each in the
order X, Y, Z, palette index. -/
def voxBytes : List Voxel → Bytes
  | [] => []
  | v :: vs => v.X :: v.Y :: v.Z :: v.Index :: voxBytes vs

/-- A concrete RGBA chunk payload: `n` color records that are all
R=9, G=8, B=7, A=6. -/
def rgbaPayload : Nat → Bytes
  | 0 => []
  | Nat.succ n => 9 :: 8 :: 7 :: 6 :: rgbaPayload n

/-- The header phase of Decode (lines 86-105): magic check then version
check. Returns the version and the remainder of the stream. -/
def readHeader (s : Bytes) : Except Err (Nat × Bytes) :=
  match goRead4 s with
  | none => .error .magicRead
  | some (magic, s1) =>
    if magic = [86, 79, 88, 32] then
      match readLE32? s1 with
      | none => .error .versionRead
      | some (version, s2) =>
        if version = 150 then .ok (version, s2)
        else .error (.badVersion version 150)
    else .error (.badMagic magic)

/-- True when the header phase of Decode succeeds on the stream. -/
def HeaderOk (s : Bytes) : Bool :=
  match readHeader s with
  | .ok _ => true
  | .error _ => false

/-- Decode (lines 83-113): validate the header, read the chunk tree, then
unconditionally install the materialized default palette, and return the
result record together with the chunk-tree error if any. Header failures
return no record (`nil` in Go); chunk-tree failures return the record
alongside the error, exactly as `return voxelFile, err` does. -/
def Decode (s : Bytes) : Option VoxFile × Option Err :=
  match readHeader s with
  | .error e => (none, some e)
  | .ok (version, s2) =>
    let vf0 : VoxFile := { emptyVox with Version := version }
    match readChunk (s2.length + 1) s2 vf0 with
    | (.ok _ _, vf) =>
      (some { vf with Palette := instancePalette defaultPalette }, none)
    | (.err e, vf) =>
      (some { vf with Palette := instancePalette defaultPalette }, some e)

/-! ## Helper lemmas -/

/-- A successful `goRead4` returns the first (up to) four bytes and the rest. -/
theorem goRead4_eq_some {s a b : Bytes} (h : goRead4 s = some (a, b)) :
    a = s.take 4 ∧ b = s.drop 4 := by
  cases s with
  | nil => simp [goRead4] at h
  | cons x xs =>
    simp only [goRead4, Option.some.injEq, Prod.mk.injEq] at h
    exact ⟨h.1.symm, h.2.symm⟩

/-- Reading a little-endian uint32 back from its four encoded bytes yields
the value modulo 2^32 and leaves the tail untouched. -/
theorem readLE32_le32b (n : Nat) (rest : Bytes) :
    readLE32? (le32b n ++ rest) = some (n % 4294967296, rest) := by
  have h : le32 (n % 256) (n / 256 % 256) (n / 65536 % 256)
      (n / 16777216 % 256) = n % 4294967296 := by
    simp only [le32]
    omega
  simp [le32b, readLE32?, h]

/-- The XYZI record loop decodes the on-disk bytes of a voxel list back to
exactly that list, in order, leaving the tail untouched. -/
theorem readVoxels_voxBytes (cid : Bytes) (vs : List Voxel) (i : Nat)
    (rest : Bytes) :
    readVoxels cid i vs.length (voxBytes vs ++ rest) = .ok (vs, rest) := by
  induction vs generalizing i with
  | nil => rfl
  | cons v vs ih =>
    cases v with
    | mk vX vY vZ vI =>
      simp only [voxBytes, List.length_cons, List.cons_append]
      simp only [readVoxels, readByte?, ih (i + 1)]

/-- Unfolding one successful readChunk step from the outcomes of its five
stages: identifier read, payload-size read, children-size read, payload
processing and the children loop. -/
theorem readChunk_ok_step (fuel : Nat) (s cid s1 : Bytes) (chunkSize : Nat)
    (sr : Bytes) (childrenSize : Nat) (sr2 : Bytes) (vf vf2 : VoxFile)
    (s4 s5 : Bytes) (vf3 : VoxFile) (hg : goRead4 s = some (cid, s1))
    (hsz : readLE32? s1 = some (chunkSize, sr))
    (hcs : readLE32? sr = some (childrenSize, sr2))
    (hp : processPayload cid chunkSize sr2 vf = .ok (vf2, s4))
    (hc : readChildren fuel childrenSize s4 vf2 = (.ok s5, vf3)) :
    readChunk (fuel + 1) s vf
      = (ChunkOut.ok ((chunkSize + 12) % 4294967296) s5, vf3) := by
  rw [readChunk]
  simp [hg, hsz, hcs, hp, hc]

/-- The children loop with a zero budget reads nothing and succeeds. -/
theorem readChildren_zero (fuel : Nat) (s : Bytes) (vf : VoxFile) :
    readChildren fuel 0 s vf = (.ok s, vf) := by
  cases fuel <;> rfl

/-- A successful header read means the first four bytes were the magic and
the next four read back as the little-endian value 150. -/
theorem readHeader_ok_shape (s : Bytes) (v : Nat) (s2 : Bytes)
    (h : readHeader s = .ok (v, s2)) :
    s.take 4 = [86, 79, 88, 32] ∧ readLE32? (s.drop 4) = some (150, s2) := by
  unfold readHeader at h
  split at h
  · simp at h
  rename_i magic s1 hg
  obtain ⟨hm, hd⟩ := goRead4_eq_some hg
  split at h
  · rename_i hmagic
    split at h
    · simp at h
    rename_i ver s2x hle
    split at h
    · rename_i hver
      simp only [Except.ok.injEq, Prod.mk.injEq] at h
      obtain ⟨-, hs2⟩ := h
      refine ⟨hm ▸ hmagic, ?_⟩
      rw [← hd, hle, hver, hs2]
    · simp at h
  · simp at h

/-! ## Claim theorems -/

/-- Claim C4 (code_bug): the code's own materialization of the default
palette. Entry 0 is {0,0,0,0} and entry 1 is {255,255,255,255} as the claim
states, but entry 2 — the unpacking of the packed value 0xffccffff under the
rule byte 0 = R, byte 1 = G, byte 2 = B, byte 3 = A — is {255,255,204,255},
not the {255,204,255,255} the claim (and the repository's own test
TestFileLoad) demands. The code therefore contradicts its own test at palette
index 2. -/
theorem c4_default_palette_entries :
    (instancePalette defaultPalette).take 3 =
      [Color.mk 0 0 0 0, Color.mk 255 255 255 255, Color.mk 255 255 204 255]
    ∧ Color.mk 255 255 204 255 ≠ Color.mk 255 204 255 255
    ∧ (instancePalette defaultPalette).length = 256 := by
  refine ⟨by decide, by decide, by decide⟩

/-- Claim C5, counterexample: a SIZE chunk with declared payload size 0
(which differs from 12) does not fail — the whole payload dispatch is guarded
by `chunkSize > 0`, so the chunk reads successfully and consumes just its
12-byte header. The claim requires a structural error for every size other
than 12, explicitly including 0. -/
theorem c5_counterexample :
    readChunk 1 [83, 73, 90, 69, 0, 0, 0, 0, 0, 0, 0, 0] emptyVox
      = (ChunkOut.ok 12 [], emptyVox)
    ∧ (readChunk 1 [83, 73, 90, 69, 0, 0, 0, 0, 0, 0, 0, 0] emptyVox).1.isErr
      = false := by
  refine ⟨by decide, by decide⟩

/-- Claim C5, amended: a SIZE chunk whose declared payload size is nonzero
and different from 12 fails with the size-mismatch format error carrying the
offending size; a declared size of 0 skips payload processing entirely and
raises no error. Stated here for any byte-encoded size with any children-size
field and any trailing bytes. -/
theorem c5_size_mismatch_error (fuel b0 b1 b2 b3 c0 c1 c2 c3 : Nat)
    (rest : Bytes) (vf : VoxFile) (h0 : 0 < le32 b0 b1 b2 b3)
    (h12 : le32 b0 b1 b2 b3 ≠ 12) :
    readChunk (fuel + 1)
        (83 :: 73 :: 90 :: 69 :: b0 :: b1 :: b2 :: b3 ::
          c0 :: c1 :: c2 :: c3 :: rest) vf
      = (ChunkOut.err (Err.sizeBadSize sizeID (le32 b0 b1 b2 b3)), vf) := by
  simp [readChunk, goRead4, readLE32?, processPayload, sizeID, h0, h12]

/-- Witness for C5: a SIZE chunk with declared payload size 8 fails with the
size-mismatch error carrying 8. -/
theorem c5_size_mismatch_error_witness :
    readChunk 1 (83 :: 73 :: 90 :: 69 :: 8 :: 0 :: 0 :: 0 ::
        0 :: 0 :: 0 :: 0 :: [1, 2, 3, 4, 5, 6, 7, 8]) emptyVox
      = (ChunkOut.err (Err.sizeBadSize sizeID (le32 8 0 0 0)), emptyVox) :=
  c5_size_mismatch_error 0 8 0 0 0 0 0 0 0 [1, 2, 3, 4, 5, 6, 7, 8] emptyVox
    (by decide) (by decide)

/-- Claim C9 (confirmed): a chunk whose declared payload size is 0 performs
no type-specific processing whatever its identifier (the dispatch is guarded
by `chunkSize > 0`), raises no error, leaves the result record exactly as it
was, and consumes exactly its 12 header bytes. Stated for an arbitrary
4-byte identifier — including SIZE, XYZI and RGBA — with a zero children
size isolating the payload handling. -/
theorem c9_zero_payload_noop (fuel i0 i1 i2 i3 : Nat) (rest : Bytes)
    (vf : VoxFile) :
    readChunk (fuel + 1)
        (i0 :: i1 :: i2 :: i3 :: 0 :: 0 :: 0 :: 0 :: 0 :: 0 :: 0 :: 0 :: rest)
        vf
      = (ChunkOut.ok 12 rest, vf) := by
  cases fuel <;> rfl

/-- Claim C2, counterexample: on the 8-byte input holding only a valid
header, the chunk read fails (no chunk identifier can be read), yet Decode
returns a populated result record alongside the error — `return voxelFile,
err` hands the partially populated record to the caller. The claim says no
result record is ever returned together with an error. -/
theorem c2_counterexample :
    ((Decode [86, 79, 88, 32, 150, 0, 0, 0]).1.isSome = true)
    ∧ ((Decode [86, 79, 88, 32, 150, 0, 0, 0]).2
        = some Err.chunkIDRead) := by
  refine ⟨by decide, by decide⟩

/-- Claim C2, amended: a result record is returned exactly when the header
validates — header failures return no record alongside the error, while
chunk-tree failures after a valid header return the partially populated
record together with the error. -/
theorem c2_result_iff_header (s : Bytes) :
    ((Decode s).1.isSome = HeaderOk s)
    ∧ (HeaderOk s = false → (Decode s).2.isSome = true) := by
  unfold Decode HeaderOk
  cases hh : readHeader s with
  | error e => simp
  | ok v =>
    obtain ⟨version, s2⟩ := v
    rcases hrc : readChunk (s2.length + 1) s2 { emptyVox with Version := version }
      with ⟨out, vf⟩
    cases out <;> simp [hrc]

/-- Witness for C2 amended: on the empty input the header fails, and Decode
indeed carries an error. -/
theorem c2_result_iff_header_witness : (Decode []).2.isSome = true :=
  (c2_result_iff_header []).2 rfl

/-- Claim C3, counterexample: a well-formed chunk "AAAA" with payload size 0
and children size 12 containing one child "BBBB" (payload 0, children 0).
The parent's returned consumed-size is 12 — the claimed value, 12 + payload
+ sum of children consumed-sizes = 12 + 0 + 12 = 24, is not what the reader
returns: children bytes are never included in the return value. -/
theorem c3_counterexample :
    readChunk 3
        [65, 65, 65, 65, 0, 0, 0, 0, 12, 0, 0, 0,
         66, 66, 66, 66, 0, 0, 0, 0, 0, 0, 0, 0] emptyVox
      = (ChunkOut.ok 12 [], emptyVox)
    ∧ ChunkOut.ok 12 [] ≠ ChunkOut.ok (12 + 0 + 12) [] := by
  refine ⟨by decide, by decide⟩

/-- Claim C3, amended: the consumed-size value returned at each recursion
level equals (12 + the declared payload size) modulo 2^32, excluding the
bytes of the children; the children loop subtracts each child's returned
value from the remaining budget in 32-bit arithmetic and stops when it
reaches 0, so the declared children size is accounted for only when every
direct child reports sizes summing to it. -/
theorem c3_consumed_size (fuel : Nat) (s : Bytes) (vf : VoxFile) (n : Nat)
    (s2 : Bytes) (vf2 : VoxFile)
    (h : readChunk fuel s vf = (ChunkOut.ok n s2, vf2)) :
    n = (declPayloadSize s + 12) % 4294967296 := by
  cases fuel with
  | zero => simp [readChunk] at h
  | succ fuel =>
    rw [readChunk] at h
    split at h
    · simp at h
    rename_i cid s1 hg
    split at h
    · simp at h
    rename_i chunkSize sr hsz
    split at h
    · simp at h
    rename_i childrenSize sr2 hcs
    split at h
    · simp at h
    rename_i vfp s4 hp
    split at h
    · simp at h
    rename_i s5 vf3 hc
    simp only [Prod.mk.injEq, ChunkOut.ok.injEq] at h
    obtain ⟨⟨hn, _⟩, _⟩ := h
    obtain ⟨_, hdrop⟩ := goRead4_eq_some hg
    unfold declPayloadSize
    rw [← hdrop, hsz]
    exact hn.symm

/-- Witness for C3 amended: a single empty chunk returns consumed-size 12 =
(0 + 12) % 2^32. -/
theorem c3_consumed_size_witness :
    (12 : Nat) =
      (declPayloadSize [65, 65, 65, 65, 0, 0, 0, 0, 0, 0, 0, 0] + 12)
        % 4294967296 :=
  c3_consumed_size 1 [65, 65, 65, 65, 0, 0, 0, 0, 0, 0, 0, 0] emptyVox 12 []
    emptyVox (by decide)

/-- Claim C7, counterexample: the payload bytes 05 00 00 00 | 01 02 03 04 of
a voxel-array chunk declare a count of 5, not 1 — the handler reads the
first record {1,2,3,4} and then fails on record index 1 at end of stream, so
the claimed decode result (count 1, a single voxel) is not produced. -/
theorem c7_counterexample :
    readChunk 1
        [88, 89, 90, 73, 8, 0, 0, 0, 0, 0, 0, 0, 5, 0, 0, 0, 1, 2, 3, 4]
        emptyVox
      = (ChunkOut.err (Err.voxelRead xyziID 1), emptyVox)
    ∧ (readChunk 1
        [88, 89, 90, 73, 8, 0, 0, 0, 0, 0, 0, 0, 5, 0, 0, 0, 1, 2, 3, 4]
        emptyVox).2.Voxels ≠ [Voxel.mk 1 2 3 4] := by
  refine ⟨by decide, by decide⟩

/-- Claim C7, amended: a voxel-array chunk declaring count N produces
exactly the N voxel records of its payload in file order, each record's four
consecutive bytes mapping to X, Y, Z, palette-index in that order, and the
new sequence replaces any prior voxel sequence on the result record; the
example payload is corrected to 01 00 00 00 | 01 02 03 04, which decodes to
count 1 and the single voxel {X=1, Y=2, Z=3, Index=4} (see the witness). -/
theorem c7_xyzi_decodes_voxels (fuel sz : Nat) (vs : List Voxel)
    (rest : Bytes) (vf : VoxFile) (hsz0 : 0 < sz) (hsz : sz < 4294967296)
    (hn : vs.length < 4294967296) :
    readChunk (fuel + 1)
        (88 :: 89 :: 90 :: 73 ::
          (le32b sz ++ (0 :: 0 :: 0 :: 0 ::
            (le32b vs.length ++ (voxBytes vs ++ rest))))) vf
      = (ChunkOut.ok ((sz + 12) % 4294967296) rest,
          { vf with Voxels := vs }) := by
  refine readChunk_ok_step fuel _ [88, 89, 90, 73]
    (le32b sz ++ (0 :: 0 :: 0 :: 0 ::
      (le32b vs.length ++ (voxBytes vs ++ rest)))) sz
    (0 :: 0 :: 0 :: 0 :: (le32b vs.length ++ (voxBytes vs ++ rest))) 0
    (le32b vs.length ++ (voxBytes vs ++ rest)) vf { vf with Voxels := vs }
    rest rest { vf with Voxels := vs } ?_ ?_ ?_ ?_ ?_
  · simp [goRead4]
  · rw [readLE32_le32b sz _, Nat.mod_eq_of_lt hsz]
  · simp [readLE32?, le32]
  · have hx : ([88, 89, 90, 73] : Bytes) = xyziID := rfl
    rw [hx]
    unfold processPayload
    rw [if_pos hsz0, if_neg (by decide : ¬(xyziID = sizeID)), if_pos rfl,
      readLE32_le32b vs.length _, Nat.mod_eq_of_lt hn]
    simp [readVoxels_voxBytes xyziID vs 0 rest]
  · exact readChildren_zero fuel rest { vf with Voxels := vs }

/-- Witness for C7 amended: the corrected example — an XYZI chunk with
declared payload size 8 and payload bytes 01 00 00 00 | 01 02 03 04 decodes
to exactly one voxel {X=1, Y=2, Z=3, Index=4}. -/
theorem c7_xyzi_decodes_voxels_witness :
    readChunk 1
        (88 :: 89 :: 90 :: 73 ::
          (le32b 8 ++ (0 :: 0 :: 0 :: 0 ::
            (le32b [Voxel.mk 1 2 3 4].length ++
              (voxBytes [Voxel.mk 1 2 3 4] ++ []))))) emptyVox
      = (ChunkOut.ok ((8 + 12) % 4294967296) [],
          { emptyVox with Voxels := [Voxel.mk 1 2 3 4] }) :=
  c7_xyzi_decodes_voxels 0 8 [Voxel.mk 1 2 3 4] [] emptyVox (by decide)
    (by decide) (by decide)

/-- Claim C8 (code_bug): the skip handler for an unrecognized identifier
reads the payload in 4-byte units without clamping the final read to the
declared size, so a chunk declaring payload size 5 followed by 8 available
bytes consumes all 8 of them (two 4-byte reads) instead of exactly 5: the
remaining stream is empty where exact skipping would have left [6, 7, 8],
desynchronizing sibling and parent accounting from the stream position. -/
theorem c8_skip_overreads :
    readChunk 1
        (90 :: 90 :: 90 :: 90 :: 5 :: 0 :: 0 :: 0 :: 0 :: 0 :: 0 :: 0 ::
          [1, 2, 3, 4, 5, 6, 7, 8]) emptyVox
      = (ChunkOut.ok 17 [], emptyVox)
    ∧ ([] : Bytes) ≠ [6, 7, 8] := by
  refine ⟨?_, by decide⟩
  rw [readChunk]
  simp only [goRead4, readLE32?, le32]
  norm_num
  rw [show processPayload [90, 90, 90, 90] 5 [1, 2, 3, 4, 5, 6, 7, 8] emptyVox
      = Except.ok (emptyVox, []) from by
    unfold processPayload
    rw [if_pos (by decide : (0 : Nat) < 5),
      if_neg (by decide : ¬(([90, 90, 90, 90] : Bytes) = sizeID)),
      if_neg (by decide : ¬(([90, 90, 90, 90] : Bytes) = xyziID)),
      if_neg (by decide : ¬(([90, 90, 90, 90] : Bytes) = rgbaID))]
    rw [skipBytes, if_pos (by decide : (0 : Nat) < 5)]
    norm_num
    rw [skipBytes, if_pos (by decide : (4 : Nat) < 5)]
    norm_num
    rw [skipBytes, if_neg (by decide : ¬((8 : Nat) < 5))]]
  simp [readChildren_zero]

/-- Claim C6 (confirmed): decode proceeds past the header — equivalently, a
result record is produced — precisely when the first 8 bytes are the ASCII
signature "VOX " followed by little-endian 150; any other value in either
field makes Decode fail before any chunk is read (no result record, an error
present), and a well-formed version field that is not 150 yields the
dedicated version-mismatch error, a constructor distinct from the
structural-error constructors. -/
theorem c6_header_gate (s : Bytes) :
    (HeaderOk s = true ↔ s.take 8 = [86, 79, 88, 32, 150, 0, 0, 0])
    ∧ (HeaderOk s = false → (Decode s).1 = none ∧ (Decode s).2.isSome = true)
    ∧ (∀ v rest, s.take 4 = [86, 79, 88, 32] →
        readLE32? (s.drop 4) = some (v, rest) → v ≠ 150 →
        (Decode s).2 = some (Err.badVersion v 150)
        ∧ Err.badVersion v 150 ≠ Err.badMagic (s.take 4)
        ∧ Err.badVersion v 150 ≠ Err.magicRead) := by
  refine ⟨⟨?_, ?_⟩, ?_, ?_⟩
  · intro h
    unfold HeaderOk at h
    rcases hh : readHeader s with e | ⟨v, s2⟩ <;> rw [hh] at h
    · simp at h
    · obtain ⟨h4, hle⟩ := readHeader_ok_shape s v s2 hh
      rcases hd : s.drop 4 with _ | ⟨c0, t0⟩
      · rw [hd] at hle; simp [readLE32?] at hle
      rcases t0 with _ | ⟨c1, t1⟩
      · rw [hd] at hle; simp [readLE32?] at hle
      rcases t1 with _ | ⟨c2, t2⟩
      · rw [hd] at hle; simp [readLE32?] at hle
      rcases t2 with _ | ⟨c3, t3⟩
      · rw [hd] at hle; simp [readLE32?] at hle
      rw [hd] at hle
      simp only [readLE32?, le32, Option.some.injEq, Prod.mk.injEq] at hle
      obtain ⟨hval, -⟩ := hle
      have hc0 : c0 = 150 := by omega
      have hc1 : c1 = 0 := by omega
      have hc2 : c2 = 0 := by omega
      have hc3 : c3 = 0 := by omega
      rw [show (8 : Nat) = 4 + 4 from rfl, List.take_add, h4, hd, hc0, hc1,
        hc2, hc3]
      rfl
  · intro h
    have hs : s = [86, 79, 88, 32, 150, 0, 0, 0] ++ s.drop 8 := by
      conv_lhs => rw [← List.take_append_drop 8 s]
      rw [h]
    rw [hs]
    simp [HeaderOk, readHeader, goRead4, readLE32?, le32]
  · intro h
    rcases hh : readHeader s with e | ⟨v, s2⟩
    · simp [Decode, hh]
    · unfold HeaderOk at h
      rw [hh] at h
      simp at h
  · intro v rest h4 hle hv
    have hne : s ≠ [] := by
      intro he
      rw [he] at h4
      simp at h4
    have hg : goRead4 s = some (s.take 4, s.drop 4) := by
      cases s with
      | nil => exact absurd rfl hne
      | cons a t => simp [goRead4]
    have hh : readHeader s = .error (.badVersion v 150) := by
      simp [readHeader, hg, h4, hle, hv]
    refine ⟨by simp [Decode, hh], by simp, by simp⟩

/-- Witness for C6: on the 8-byte input "VOX " followed by little-endian
149, Decode fails with the version-mismatch error carrying 149 and 150. -/
theorem c6_header_gate_witness :
    (Decode [86, 79, 88, 32, 149, 0, 0, 0]).2
      = some (Err.badVersion 149 150) :=
  ((c6_header_gate [86, 79, 88, 32, 149, 0, 0, 0]).2.2 149 []
    (by decide) (by decide) (by decide)).1

/-- Claim C10 (confirmed): for every input whose header validates, Decode
returns a result record — whether or not the chunk-tree read succeeded —
whose palette is exactly the materialization of the built-in default
palette, a table of 256 entries, independent of any RGBA chunk content:
line 110 runs unconditionally after the chunk tree is read. -/
theorem c10_palette_always_default (s : Bytes) (h : HeaderOk s = true) :
    ((Decode s).1.map VoxFile.Palette) = some (instancePalette defaultPalette)
    ∧ (instancePalette defaultPalette).length = 256 := by
  refine ⟨?_, by decide⟩
  rcases hh : readHeader s with e | ⟨v, s2⟩
  · unfold HeaderOk at h
    rw [hh] at h
    simp at h
  · rcases hrc : readChunk (s2.length + 1) s2 { emptyVox with Version := v }
      with ⟨out, vf⟩
    cases out <;> simp [Decode, hh, hrc]

/-- Witness for C10: the bare valid header decodes (with a chunk-level
error) to a record whose palette is the 256-entry default materialization. -/
theorem c10_palette_always_default_witness :
    ((Decode [86, 79, 88, 32, 150, 0, 0, 0]).1.map VoxFile.Palette)
      = some (instancePalette defaultPalette)
    ∧ (instancePalette defaultPalette).length = 256 :=
  c10_palette_always_default [86, 79, 88, 32, 150, 0, 0, 0] (by decide)

/-- Claim C1 (code_bug): a valid file consisting of one RGBA chunk whose 256
entries are all {R=9, G=8, B=7, A=6} decodes successfully, the RGBA handler
itself reads exactly those 256 entries — and yet the returned palette is the
default materialization, not the custom table: `voxelFile.Palette =
instancePalette(defaultPalette)` runs unconditionally after the chunk tree
(line 110), contradicting its own comment "if we didn't have a custom
palette" and the claim that the custom table overrides the default. -/
theorem c1_rgba_palette_overwritten :
    Decode ([86, 79, 88, 32, 150, 0, 0, 0] ++
        (82 :: 71 :: 66 :: 65 :: (le32b 1024 ++ (le32b 0 ++ rgbaPayload 256))))
      = (some { Version := 150, SizeX := 0, SizeY := 0, SizeZ := 0,
                Voxels := [], Palette := instancePalette defaultPalette },
         none)
    ∧ readColors rgbaID 0 256 (rgbaPayload 256)
        = .ok (List.replicate 256 (Color.mk 9 8 7 6), [])
    ∧ instancePalette defaultPalette ≠ List.replicate 256 (Color.mk 9 8 7 6) := by
  refine ⟨by decide, by rfl, by decide⟩

end Voxfile
